import Mathlib

/-!
Verification of the core of the interview practice application: the local
answer evaluator (modules/nlp_evaluator.py) and the interview flow manager
(modules/interview_flow.py), embedded shallowly.

Strings are processed over their character lists; scores are exact
rationals (Python float arithmetic on these small dyadic constants and
simple ratios is modelled exactly).  The embedding models the
deterministic local configuration: no sentence-transformers model, no
TextBlob, and no Gemini credential, so the optional semantic-similarity,
polarity and LLM branches of the source are absent and the local
fallback path runs.  Randomness (random.choice) is modelled by an
explicit seed choosing index seed % length, so theorems quantify over
every possible random choice.
-/

set_option maxRecDepth 40000
set_option maxHeartbeats 1600000

/-- Python str.lower on the ASCII range. -/
def lowerStr (s : String) : String := ⟨s.data.map Char.toLower⟩

/-- Remove leading and trailing whitespace from a character list. -/
def trimChars (l : List Char) : List Char :=
  ((l.dropWhile Char.isWhitespace).reverse.dropWhile Char.isWhitespace).reverse

/-- Python str.strip. -/
def stripStr (s : String) : String := ⟨trimChars s.data⟩

/-- Split a character list at every character satisfying p (delimiters dropped,
empty pieces kept, as re.split on a single-character class). -/
def splitChars (p : Char → Bool) : List Char → List (List Char)
  | [] => [[]]
  | c :: t =>
    let r := splitChars p t
    if p c then [] :: r
    else
      match r with
      | [] => [[c]]
      | h :: r2 => (c :: h) :: r2

/-- Python str.split with no argument: split on whitespace runs, no empties. -/
def splitWords (s : String) : List String :=
  ((splitChars (fun c => c.isWhitespace) s.data).filter (fun l => !l.isEmpty)).map
    (fun l => (⟨l⟩ : String))

/-- Whether pat is a prefix of the second list. -/
def isPrefixList : List Char → List Char → Bool
  | [], _ => true
  | _ :: _, [] => false
  | p :: ps, c :: cs => p == c && isPrefixList ps cs

/-- Whether pat occurs as a contiguous sublist of the second list. -/
def containsList (pat : List Char) : List Char → Bool
  | [] => pat.isEmpty
  | c :: t => isPrefixList pat (c :: t) || containsList pat t

/-- Python substring membership: pat in hay. -/
def strContains (hay pat : String) : Bool := containsList pat.data hay.data

/-- Python: any(phrase in hay for phrase in phrases). -/
def anyContains (hay : String) (phrases : List String) : Bool :=
  phrases.any (fun p => strContains hay p)

/-- Python str.replace applied to single characters: underscores to spaces. -/
def underscoreToSpace (s : String) : String :=
  ⟨s.data.map (fun c => if c == '_' then ' ' else c)⟩

/-- The final clamp min(100, max(0, score)) applied by every sub-scorer. -/
def clamp (x : ℚ) : ℚ := min 100 (max 0 x)

/-- Round to the nearest integer, ties to even, as Python round. -/
def roundHalfEven (q : ℚ) : ℤ :=
  if q - ⌊q⌋ < 1/2 then ⌊q⌋
  else if q - ⌊q⌋ > 1/2 then ⌊q⌋ + 1
  else if ⌊q⌋ % 2 = 0 then ⌊q⌋ else ⌊q⌋ + 1

/-- Python round(x, 1). -/
def round1 (x : ℚ) : ℚ := (roundHalfEven (x * 10) : ℚ) / 10

/-- The non-answer phrase list of _evaluate_technical_accuracy (15 phrases). -/
def nonAnswerPhrasesTechnical : List String :=
  ["i don\x27t know", "i dont know", "not sure", "no idea",
   "don\x27t know", "dont know", "i have no idea", "i am not sure",
   "i\x27m not sure", "no clue", "cannot answer", "can\x27t answer",
   "don\x27t understand", "dont understand", "not familiar"]

/-- The shorter non-answer phrase list shared by the communication, sentiment
and completeness sub-scorers (7 phrases). -/
def nonAnswerPhrasesShort : List String :=
  ["i don\x27t know", "i dont know", "not sure", "no idea",
   "don\x27t know", "dont know", "i have no idea"]

/-- Discourse connectives rewarded by the communication sub-scorer. -/
def professionalIndicators : List String :=
  ["because", "therefore", "however", "additionally",
   "furthermore", "consequently", "specifically"]

/-- Confidence indicators rewarded by the sentiment sub-scorer. -/
def confidenceWords : List String :=
  ["confident", "certainly", "definitely", "absolutely",
   "believe", "sure", "experience", "successfully"]

/-- Hedging indicators penalised by the sentiment sub-scorer. -/
def uncertaintyWords : List String :=
  ["maybe", "perhaps", "not sure", "i think",
   "possibly", "might", "could be", "guess"]

/-- Explanatory phrasing rewarded by the completeness sub-scorer. -/
def explanationIndicators : List String :=
  ["for example", "such as", "like", "because",
   "this means", "in other words", "specifically"]

/-- Stopwords excluded from question content words in completeness. -/
def stopWords : List String :=
  ["the", "a", "an", "is", "are", "what", "how", "why",
   "when", "where", "who", "which", "do", "does", "you", "your"]

/-- A question record: the keys the core reads from a question dictionary. -/
structure Question where
  question : String
  keywords : List String := []
  technical_concepts : List String := []
  expected_duration : Option ℚ := none
  ideal_answer : Option String := none
  is_follow_up : Bool := false
  custom_generated : Bool := false
  original_question : Option String := none
deriving DecidableEq, Repr

/-- The evaluation record returned by evaluate_answer (feedback strings,
which no scored field depends on, are not modelled). -/
structure Evaluation where
  overall_score : ℚ
  technical_accuracy : ℚ
  communication_skills : ℚ
  sentiment_tone : ℚ
  completeness : ℚ
  grade : String
  pass : Bool
deriving DecidableEq, Repr

/-- NLPEvaluator._evaluate_technical_accuracy (local path, no
sentence-transformers model available, so the semantic-similarity bonus
branch is absent). -/
def _evaluate_technical_accuracy (answer : String) (question : Question)
    (mode : String) : ℚ :=
  let answer_lower := stripStr (lowerStr answer)
  let word_count := (splitWords answer).length
  if anyContains answer_lower nonAnswerPhrasesTechnical then 5
  else if word_count < 5 then 10
  else
    let score0 : ℚ := if mode = "HR" then 25 else 15
    let keywords := question.keywords
    let matched_keywords :=
      (keywords.filter (fun kw => strContains answer_lower (lowerStr kw))).length
    let nearMatches :=
      (keywords.filter (fun kw =>
        !strContains answer_lower (lowerStr kw) &&
        (splitWords (lowerStr kw)).any (fun w => strContains answer_lower w))).length
    let score1 :=
      if keywords.isEmpty then score0
      else
        score0 + (matched_keywords : ℚ) / (keywords.length : ℚ) * 45
          + (nearMatches : ℚ) / (keywords.length : ℚ) * 15
          - (if matched_keywords = 0 ∧ nearMatches = 0 then 20 else 0)
    let concepts := question.technical_concepts
    let score2 :=
      if concepts.isEmpty then score1
      else
        let matched_concepts :=
          (concepts.filter (fun c =>
            strContains answer_lower (lowerStr (underscoreToSpace c)))).length
        let concept_ratio : ℚ := (matched_concepts : ℚ) / (concepts.length : ℚ)
        score1 + concept_ratio * 20 - (if concept_ratio < 0.3 then 10 else 0)
    let score3 :=
      if 50 < word_count then score2 + min (((word_count : ℚ) - 50) / 10) 10
      else if word_count < 20 then score2 - 10
      else score2
    clamp score3

/-- NLPEvaluator._evaluate_communication_skills. -/
def _evaluate_communication_skills (answer : String) : ℚ :=
  let answer_lower := stripStr (lowerStr answer)
  let words := splitWords answer
  let word_count := words.length
  if anyContains answer_lower nonAnswerPhrasesShort then 15
  else if word_count < 5 then 20
  else
    let s1 : ℚ := 30 +
      (if 30 ≤ word_count ∧ word_count ≤ 200 then 20
       else if 20 ≤ word_count ∧ word_count < 30 then 15
       else if 10 ≤ word_count ∧ word_count < 20 then 10
       else if word_count < 10 then -10 else 0)
    let sentences :=
      ((splitChars (fun c => c == '.' || c == '!' || c == '?') answer.data).map
        trimChars).filter (fun l => !l.isEmpty)
    let s2 := s1 +
      (if 3 ≤ sentences.length then 15
       else if 2 ≤ sentences.length then 10 else 5)
    let unique_words := words.dedup.length
    let s3 := s2 +
      (if 0 < word_count then
        (if (unique_words : ℚ) / (word_count : ℚ) > 0.7 then 15
         else if (unique_words : ℚ) / (word_count : ℚ) > 0.5 then 10 else 5)
       else 0)
    let lowered := words.map lowerStr
    let maxFreq := (lowered.map (fun w => lowered.count w)).foldr max 0
    let s4 := s3 - (if (maxFreq : ℚ) > (word_count : ℚ) * 0.2 then 15 else 0)
    let professional_count :=
      (professionalIndicators.filter (fun w => strContains (lowerStr answer) w)).length
    let s5 := s4 + min ((professional_count : ℚ) * 3) 10
    clamp s5

/-- NLPEvaluator._evaluate_sentiment_and_tone (TextBlob unavailable, so the
polarity and subjectivity branch is absent). -/
def _evaluate_sentiment_and_tone (answer : String) : ℚ :=
  let answer_lower := stripStr (lowerStr answer)
  let word_count := (splitWords answer).length
  if anyContains answer_lower nonAnswerPhrasesShort then 20
  else if word_count < 5 then 25
  else
    let confidence_count :=
      (confidenceWords.filter (fun w => strContains (lowerStr answer) w)).length
    let uncertainty_count :=
      (uncertaintyWords.filter (fun w => strContains (lowerStr answer) w)).length
    let s : ℚ := 35 + min ((confidence_count : ℚ) * 4) 12
      - min ((uncertainty_count : ℚ) * 6) 20
    clamp s

/-- NLPEvaluator._evaluate_completeness. -/
def _evaluate_completeness (answer : String) (question : Question) : ℚ :=
  let answer_lower := stripStr (lowerStr answer)
  let word_count := (splitWords answer).length
  if anyContains answer_lower nonAnswerPhrasesShort then 10
  else if word_count < 5 then 15
  else
    let expected_words : ℚ := (question.expected_duration.getD 60) * 2.5
    let s1 : ℚ := 25 +
      (if (word_count : ℚ) ≥ expected_words * 0.8 then 30
       else if (word_count : ℚ) ≥ expected_words * 0.6 then 25
       else if (word_count : ℚ) ≥ expected_words * 0.4 then 15
       else if (word_count : ℚ) < expected_words * 0.2 then -10 else 0)
    let question_keywords :=
      ((((splitChars (fun c => !(c.isAlphanum || c == '_'))
            (lowerStr question.question).data).filter (fun l => !l.isEmpty)).map
          (fun l => (⟨l⟩ : String))).dedup).filter (fun w => !stopWords.contains w)
    let matched :=
      (question_keywords.filter (fun kw => strContains answer_lower kw)).length
    let s2 :=
      if question_keywords.isEmpty then s1
      else
        s1 + (matched : ℚ) / (question_keywords.length : ℚ) * 30
          - (if (matched : ℚ) / (question_keywords.length : ℚ) < 0.2 then 15 else 0)
    let s3 := s2 +
      (if explanationIndicators.any (fun p => strContains answer_lower p) then 10 else 0)
    clamp s3

/-- NLPEvaluator._get_grade. -/
def _get_grade (score : ℚ) : String :=
  if score ≥ 90 then "A (Excellent)"
  else if score ≥ 80 then "B (Very Good)"
  else if score ≥ 70 then "C (Good)"
  else if score ≥ 60 then "D (Satisfactory)"
  else "F (Needs Improvement)"

/-- The mode-weighted overall score computed inside evaluate_answer. -/
def overall_weighted (answer : String) (question : Question) (mode : String) : ℚ :=
  let technical_score := _evaluate_technical_accuracy answer question mode
  let communication_score := _evaluate_communication_skills answer
  let sentiment_score := _evaluate_sentiment_and_tone answer
  let completeness_score := _evaluate_completeness answer question
  if mode = "Technical" then
    technical_score * 0.40 + communication_score * 0.25
      + sentiment_score * 0.15 + completeness_score * 0.20
  else if mode = "HR" then
    technical_score * 0.10 + communication_score * 0.35
      + sentiment_score * 0.30 + completeness_score * 0.25
  else
    technical_score * 0.30 + communication_score * 0.30
      + sentiment_score * 0.20 + completeness_score * 0.20

/-- NLPEvaluator.evaluate_answer, local path.  The stored fields are rounded
to one decimal; grade and pass are computed from the unrounded overall. -/
def evaluate_answer (user_answer : String) (question : Question)
    (interview_mode difficulty : String) : Evaluation :=
  let overall := overall_weighted user_answer question interview_mode
  { overall_score := round1 overall
    technical_accuracy := round1 (_evaluate_technical_accuracy user_answer question interview_mode)
    communication_skills := round1 (_evaluate_communication_skills user_answer)
    sentiment_tone := round1 (_evaluate_sentiment_and_tone user_answer)
    completeness := round1 (_evaluate_completeness user_answer question)
    grade := _get_grade overall
    pass := decide (60 ≤ overall) }

/-- A session state as built by InterviewFlowManager.start_session. -/
structure Session where
  mode : String
  difficulty : String
  num_questions : ℕ
  current_index : ℕ
  questions_asked : List Question := []
  available_questions : List Question := []
  follow_up_needed : Bool := false
  follow_up_reason : Option String := none
  last_answer : Option String := none
deriving DecidableEq, Repr

/-- The fixed follow-up template lists, keyed by reason with the incomplete
list as default. -/
def followUpTemplates (reason : String) : List String :=
  if reason = "incomplete" then
    ["Can you elaborate more on that?",
     "Could you provide more details about your answer?",
     "Can you give a specific example to illustrate your point?"]
  else if reason = "too_short" then
    ["That\x27s interesting. Can you explain further?",
     "Could you expand on that idea?",
     "What else can you tell me about this?"]
  else if reason = "vague" then
    ["Can you be more specific?",
     "Could you give a concrete example?",
     "What exactly do you mean by that?"]
  else if reason = "no_example" then
    ["Can you provide a specific example from your experience?",
     "Could you share a real situation where this happened?",
     "Walk me through a specific instance."]
  else
    ["Can you elaborate more on that?",
     "Could you provide more details about your answer?",
     "Can you give a specific example to illustrate your point?"]

/-- InterviewFlowManager._generate_follow_up (template path; no Gemini
credential is configured in the local deterministic configuration). -/
def _generate_follow_up (s : Session) (seed : ℕ) : Option Question :=
  match s.questions_asked.getLast? with
  | none => none
  | some last_question =>
    let reason := s.follow_up_reason.getD "generic"
    let templates := followUpTemplates reason
    let follow_up_text := templates.getD (seed % templates.length) ""
    some { question := follow_up_text
           keywords := last_question.keywords
           expected_duration := some 60
           is_follow_up := true
           original_question := some last_question.question }

/-- InterviewFlowManager._get_questions_for_session: the questions bank is
modelled as a total lookup (the nested dict .get calls with default []). -/
def _get_questions_for_session (bank : String → String → List Question)
    (mode difficulty : String) : List Question :=
  bank mode difficulty

/-- The pool draw at the end of get_next_question: pick the question at the
seed index, remove its first occurrence, append it to the asked history and
advance the index. -/
def drawFrom (s : Session) (a : Question) (t : List Question) (seed : ℕ) :
    Option Question × Option Session :=
  let q := (a :: t).getD (seed % (a :: t).length) a
  (some q,
   some { s with available_questions := (a :: t).erase q
                 questions_asked := s.questions_asked ++ [q]
                 current_index := s.current_index + 1 })

/-- InterviewFlowManager.get_next_question. -/
def get_next_question (bank : String → String → List Question)
    (sess : Option Session) (seed : ℕ) : Option Question × Option Session :=
  match sess with
  | none => (none, none)
  | some s =>
    match (if s.follow_up_needed then _generate_follow_up s seed else none) with
    | some fu => (some fu, some { s with follow_up_needed := false })
    | none =>
      if s.num_questions ≤ s.current_index then (none, some s)
      else
        match s.available_questions with
        | [] =>
          match _get_questions_for_session bank s.mode s.difficulty with
          | [] => (none, some { s with available_questions := [] })
          | a :: t => drawFrom { s with available_questions := a :: t } a t seed
        | a :: t => drawFrom s a t seed

/-- InterviewFlowManager.should_ask_follow_up: returns the decision and the
updated session. -/
def should_ask_follow_up (s : Session) (evaluation : Evaluation) :
    Bool × Session :=
  if evaluation.completeness < 60 then
    (true, { s with follow_up_needed := true, follow_up_reason := some "incomplete" })
  else if evaluation.overall_score < 50 then
    (true, { s with follow_up_needed := true, follow_up_reason := some "too_short" })
  else (false, s)

def ansC10 : String :=
  "entropy heat bb bc bd bf bg bh bj bk bl bm bn bp bq br bs bt bv bw bx bz. cb cc cd cf cg ch cj ck cl cm cn cp cq cr cs ct cv cw cx cz db dc dd df dg dh dj dk dl dm dn dp dq dr ds dt dv dw dx dz. fb fc fd ff fg fh fj fk fl fm fn fp fq fr fs ft fv fw fx fz gb gc gd gf gg gh gj gk gl gm gn gp gq gr gs gt gv gw gx gz hb hc hd hf hg hh hj hk hl hm hn hp hq hr hs ht."

def qC10 : Question :=
  { question := "What is thermodynamic entropy"
    keywords := ["entropy", "heat", "thermodynamic"]
    expected_duration := some 40 }

def ansC3 : String :=
  "No clue honestly, but physics studies matter and energy in space and time overall."

def qC3 : Question :=
  { question := "what is physics"
    keywords := ["physics", "matter", "energy"]
    expected_duration := some 4 }

def ansC9 : String := "A variable is a named storage location in memory"

def qC9 : Question :=
  { question := "What is a variable in programming?"
    keywords := ["variable", "data", "storage"]
    technical_concepts := ["programming_basics"]
    expected_duration := some 60
    ideal_answer := some "A variable is a named storage location in memory" }

def qDup : Question :=
  { question := "Tell me about yourself."
    keywords := ["background", "experience", "skills"]
    expected_duration := some 90 }

/-- The session produced by start_session with two equal forced custom
questions: the pool holds two copies of the same question value. -/
def sDup : Session :=
  { mode := "HR", difficulty := "Beginner", num_questions := 2,
    current_index := 0, questions_asked := [],
    available_questions := [qDup, qDup], follow_up_needed := false }

def emptyBank : String → String → List Question := fun _ _ => []

def sC4 : Session :=
  { mode := "HR", difficulty := "Beginner", num_questions := 2,
    current_index := 1, questions_asked := [qDup],
    available_questions := [], follow_up_needed := true,
    follow_up_reason := some "incomplete" }

def sC6 : Session :=
  { mode := "HR", difficulty := "Advanced", num_questions := 3,
    current_index := 1, questions_asked := [qDup],
    available_questions := [], follow_up_needed := false }

def sIdle : Session :=
  { mode := "HR", difficulty := "Beginner", num_questions := 2,
    current_index := 0 }

def evalLowCompleteness : Evaluation :=
  { overall_score := 90, technical_accuracy := 90, communication_skills := 90,
    sentiment_tone := 90, completeness := 40,
    grade := "A (Excellent)", pass := true }

def evalLowOverall : Evaluation :=
  { overall_score := 45, technical_accuracy := 30, communication_skills := 50,
    sentiment_tone := 50, completeness := 70,
    grade := "F (Needs Improvement)", pass := false }

def evalGood : Evaluation :=
  { overall_score := 75, technical_accuracy := 70, communication_skills := 80,
    sentiment_tone := 70, completeness := 80,
    grade := "C (Good)", pass := true }

def fuC4 : Question :=
  { question := "Can you elaborate more on that?"
    keywords := ["background", "experience", "skills"]
    expected_duration := some 60
    is_follow_up := true
    original_question := some "Tell me about yourself." }

def s2C4 : Session := { sC4 with follow_up_needed := false }

def sW5 : Session :=
  { mode := "HR", difficulty := "Beginner", num_questions := 2,
    current_index := 0, questions_asked := [],
    available_questions := [qDup], follow_up_needed := false }

/-- The session state after the first draw from the duplicate pool. -/
def sDupAfter : Session :=
  { sDup with available_questions := [qDup],
              questions_asked := [qDup], current_index := 1 }

/-! Helper lemmas. -/

lemma clamp_bounds (x : ℚ) : 0 ≤ clamp x ∧ clamp x ≤ 100 := by
  unfold clamp
  constructor
  · exact le_min (by norm_num) (le_max_left 0 x)
  · exact min_le_left 100 _

lemma roundHalfEven_close (q : ℚ) :
    q - 1/2 ≤ (roundHalfEven q : ℚ) ∧ (roundHalfEven q : ℚ) ≤ q + 1/2 := by
  unfold roundHalfEven
  have hf := Int.floor_le q
  have hf2 := Int.lt_floor_add_one q
  split_ifs with h1 h2 h3 <;> constructor <;> push_cast at * <;> linarith

lemma round1_close (x : ℚ) : x - 1/20 ≤ round1 x ∧ round1 x ≤ x + 1/20 := by
  obtain ⟨h1, h2⟩ := roundHalfEven_close (x * 10)
  unfold round1
  constructor <;> linarith

lemma round1_bounds (x : ℚ) (h0 : 0 ≤ x) (h100 : x ≤ 100) :
    0 ≤ round1 x ∧ round1 x ≤ 100 := by
  have hfl : (0 : ℤ) ≤ ⌊x * 10⌋ := Int.floor_nonneg.mpr (by linarith)
  have hf := Int.floor_le (x * 10)
  have hupq : (⌊x * 10⌋ : ℚ) ≤ 1000 := le_trans hf (by linarith)
  have hup : ⌊x * 10⌋ ≤ 1000 := by exact_mod_cast hupq
  constructor
  · unfold round1 roundHalfEven
    split_ifs <;> push_cast at hfl ⊢ <;> positivity
  · unfold round1 roundHalfEven
    split_ifs with h1 h2 h3
    · have : ((⌊x * 10⌋ : ℚ)) ≤ 1000 := by exact_mod_cast hup
      linarith
    · have hlt : ⌊x * 10⌋ < 1000 := by
        by_contra hc
        push_neg at hc
        have : (1000 : ℚ) ≤ (⌊x * 10⌋ : ℚ) := by exact_mod_cast hc
        linarith
      have : ((⌊x * 10⌋ : ℚ)) + 1 ≤ 1000 := by exact_mod_cast hlt
      push_cast
      linarith
    · have : ((⌊x * 10⌋ : ℚ)) ≤ 1000 := by exact_mod_cast hup
      linarith
    · have hlt : ⌊x * 10⌋ < 1000 := by
        by_contra hc
        push_neg at hc
        have hcq : (1000 : ℚ) ≤ (⌊x * 10⌋ : ℚ) := by exact_mod_cast hc
        have heq : x * 10 - ⌊x * 10⌋ = 1/2 := by linarith
        linarith
      have : ((⌊x * 10⌋ : ℚ)) + 1 ≤ 1000 := by exact_mod_cast hlt
      push_cast
      linarith

lemma technical_bounds (ans : String) (q : Question) (m : String) :
    0 ≤ _evaluate_technical_accuracy ans q m
      ∧ _evaluate_technical_accuracy ans q m ≤ 100 := by
  unfold _evaluate_technical_accuracy
  by_cases h1 : anyContains (stripStr (lowerStr ans)) nonAnswerPhrasesTechnical = true
  · norm_num [h1]
  · by_cases h2 : (splitWords ans).length < 5
    · norm_num [h1, h2]
    · simp only [h1, h2, if_false]
      exact clamp_bounds _

lemma communication_bounds (ans : String) :
    0 ≤ _evaluate_communication_skills ans
      ∧ _evaluate_communication_skills ans ≤ 100 := by
  unfold _evaluate_communication_skills
  by_cases h1 : anyContains (stripStr (lowerStr ans)) nonAnswerPhrasesShort = true
  · norm_num [h1]
  · by_cases h2 : (splitWords ans).length < 5
    · norm_num [h1, h2]
    · simp only [h1, h2, if_false]
      exact clamp_bounds _

lemma sentiment_bounds (ans : String) :
    0 ≤ _evaluate_sentiment_and_tone ans
      ∧ _evaluate_sentiment_and_tone ans ≤ 100 := by
  unfold _evaluate_sentiment_and_tone
  by_cases h1 : anyContains (stripStr (lowerStr ans)) nonAnswerPhrasesShort = true
  · norm_num [h1]
  · by_cases h2 : (splitWords ans).length < 5
    · norm_num [h1, h2]
    · simp only [h1, h2, if_false]
      exact clamp_bounds _

lemma completeness_bounds (ans : String) (q : Question) :
    0 ≤ _evaluate_completeness ans q ∧ _evaluate_completeness ans q ≤ 100 := by
  unfold _evaluate_completeness
  by_cases h1 : anyContains (stripStr (lowerStr ans)) nonAnswerPhrasesShort = true
  · norm_num [h1]
  · by_cases h2 : (splitWords ans).length < 5
    · norm_num [h1, h2]
    · simp only [h1, h2, if_false]
      exact clamp_bounds _

lemma overall_weighted_bounds (ans : String) (q : Question) (m : String) :
    0 ≤ overall_weighted ans q m ∧ overall_weighted ans q m ≤ 100 := by
  obtain ⟨t0, t1⟩ := technical_bounds ans q m
  obtain ⟨c0, c1⟩ := communication_bounds ans
  obtain ⟨s0, s1⟩ := sentiment_bounds ans
  obtain ⟨k0, k1⟩ := completeness_bounds ans q
  unfold overall_weighted
  split_ifs <;> constructor <;> linarith

lemma grade_eq_A_iff (o : ℚ) : _get_grade o = "A (Excellent)" ↔ 90 ≤ o := by
  unfold _get_grade
  rcases le_or_lt 90 o with h90 | h90
  · rw [if_pos h90]
    simp [h90]
  · rw [if_neg (not_le.mpr h90)]
    constructor
    · intro hh
      split_ifs at hh <;> exact absurd hh (by decide)
    · intro hh
      exact absurd hh (not_le.mpr h90)

lemma grade_eq_B_iff (o : ℚ) : _get_grade o = "B (Very Good)" ↔ 80 ≤ o ∧ o < 90 := by
  unfold _get_grade
  rcases le_or_lt 90 o with h90 | h90
  · rw [if_pos h90]
    constructor
    · intro hh
      exact absurd hh (by decide)
    · rintro ⟨-, hlt⟩
      exact absurd h90 (not_le.mpr hlt)
  · rw [if_neg (not_le.mpr h90)]
    rcases le_or_lt 80 o with h80 | h80
    · rw [if_pos h80]
      simp [h80, h90]
    · rw [if_neg (not_le.mpr h80)]
      constructor
      · intro hh
        split_ifs at hh <;> exact absurd hh (by decide)
      · rintro ⟨hge, -⟩
        exact absurd hge (not_le.mpr h80)

lemma grade_eq_C_iff (o : ℚ) : _get_grade o = "C (Good)" ↔ 70 ≤ o ∧ o < 80 := by
  unfold _get_grade
  rcases le_or_lt 90 o with h90 | h90
  · rw [if_pos h90]
    constructor
    · intro hh
      exact absurd hh (by decide)
    · rintro ⟨-, hlt⟩
      exact absurd h90 (not_le.mpr (by linarith))
  · rw [if_neg (not_le.mpr h90)]
    rcases le_or_lt 80 o with h80 | h80
    · rw [if_pos h80]
      constructor
      · intro hh
        exact absurd hh (by decide)
      · rintro ⟨-, hlt⟩
        exact absurd h80 (not_le.mpr hlt)
    · rw [if_neg (not_le.mpr h80)]
      rcases le_or_lt 70 o with h70 | h70
      · rw [if_pos h70]
        simp [h70, h80]
      · rw [if_neg (not_le.mpr h70)]
        constructor
        · intro hh
          split_ifs at hh <;> exact absurd hh (by decide)
        · rintro ⟨hge, -⟩
          exact absurd hge (not_le.mpr h70)

lemma grade_eq_D_iff (o : ℚ) : _get_grade o = "D (Satisfactory)" ↔ 60 ≤ o ∧ o < 70 := by
  unfold _get_grade
  rcases le_or_lt 90 o with h90 | h90
  · rw [if_pos h90]
    constructor
    · intro hh
      exact absurd hh (by decide)
    · rintro ⟨-, hlt⟩
      exact absurd h90 (not_le.mpr (by linarith))
  · rw [if_neg (not_le.mpr h90)]
    rcases le_or_lt 80 o with h80 | h80
    · rw [if_pos h80]
      constructor
      · intro hh
        exact absurd hh (by decide)
      · rintro ⟨-, hlt⟩
        exact absurd h80 (not_le.mpr (by linarith))
    · rw [if_neg (not_le.mpr h80)]
      rcases le_or_lt 70 o with h70 | h70
      · rw [if_pos h70]
        constructor
        · intro hh
          exact absurd hh (by decide)
        · rintro ⟨-, hlt⟩
          exact absurd h70 (not_le.mpr hlt)
      · rw [if_neg (not_le.mpr h70)]
        rcases le_or_lt 60 o with h60 | h60
        · rw [if_pos h60]
          simp [h60, h70]
        · rw [if_neg (not_le.mpr h60)]
          constructor
          · intro hh
            exact absurd hh (by decide)
          · rintro ⟨hge, -⟩
            exact absurd hge (not_le.mpr h60)

lemma grade_eq_F_iff (o : ℚ) : _get_grade o = "F (Needs Improvement)" ↔ o < 60 := by
  unfold _get_grade
  rcases lt_or_le o 60 with h60 | h60
  · rw [if_neg (not_le.mpr (by linarith : o < 90)), if_neg (not_le.mpr (by linarith : o < 80)),
      if_neg (not_le.mpr (by linarith : o < 70)), if_neg (not_le.mpr h60)]
    simp [h60]
  · constructor
    · intro hh
      split_ifs at hh <;> exact absurd hh (by decide)
    · intro hh
      exact absurd hh (not_lt.mpr h60)

lemma grade_mem (o : ℚ) :
    _get_grade o = "A (Excellent)" ∨ _get_grade o = "B (Very Good)"
      ∨ _get_grade o = "C (Good)" ∨ _get_grade o = "D (Satisfactory)"
      ∨ _get_grade o = "F (Needs Improvement)" := by
  unfold _get_grade
  split_ifs <;> simp

/-- C1.  For every answer, question, mode and difficulty, the grade stored by
evaluate_answer is determined from the overall weighted score by the
thresholds 90/80/70/60, and pass holds exactly when the overall score is at
least 60; in particular overall = 60 gives D and pass, and overall below 60
gives F and not pass, exactly at the boundary. -/
theorem C1_grade_and_pass_thresholds (ans : String) (q : Question)
    (mode dif : String) :
    ((evaluate_answer ans q mode dif).pass = true ↔ 60 ≤ overall_weighted ans q mode)
    ∧ ((evaluate_answer ans q mode dif).grade = "A (Excellent)" ↔
        90 ≤ overall_weighted ans q mode)
    ∧ ((evaluate_answer ans q mode dif).grade = "B (Very Good)" ↔
        80 ≤ overall_weighted ans q mode ∧ overall_weighted ans q mode < 90)
    ∧ ((evaluate_answer ans q mode dif).grade = "C (Good)" ↔
        70 ≤ overall_weighted ans q mode ∧ overall_weighted ans q mode < 80)
    ∧ ((evaluate_answer ans q mode dif).grade = "D (Satisfactory)" ↔
        60 ≤ overall_weighted ans q mode ∧ overall_weighted ans q mode < 70)
    ∧ ((evaluate_answer ans q mode dif).grade = "F (Needs Improvement)" ↔
        overall_weighted ans q mode < 60) := by
  refine ⟨?_, ?_, ?_, ?_, ?_, ?_⟩
  · show decide (60 ≤ overall_weighted ans q mode) = true ↔ _
    exact decide_eq_true_iff
  · exact grade_eq_A_iff _
  · exact grade_eq_B_iff _
  · exact grade_eq_C_iff _
  · exact grade_eq_D_iff _
  · exact grade_eq_F_iff _

/-- C8.  Every sub-score and the overall score stored by evaluate_answer lie
in the interval [0, 100]. -/
theorem C8_scores_in_range (ans : String) (q : Question) (mode dif : String) :
    (0 ≤ (evaluate_answer ans q mode dif).technical_accuracy
      ∧ (evaluate_answer ans q mode dif).technical_accuracy ≤ 100)
    ∧ (0 ≤ (evaluate_answer ans q mode dif).communication_skills
      ∧ (evaluate_answer ans q mode dif).communication_skills ≤ 100)
    ∧ (0 ≤ (evaluate_answer ans q mode dif).sentiment_tone
      ∧ (evaluate_answer ans q mode dif).sentiment_tone ≤ 100)
    ∧ (0 ≤ (evaluate_answer ans q mode dif).completeness
      ∧ (evaluate_answer ans q mode dif).completeness ≤ 100)
    ∧ (0 ≤ (evaluate_answer ans q mode dif).overall_score
      ∧ (evaluate_answer ans q mode dif).overall_score ≤ 100) := by
  obtain ⟨t0, t1⟩ := technical_bounds ans q mode
  obtain ⟨c0, c1⟩ := communication_bounds ans
  obtain ⟨s0, s1⟩ := sentiment_bounds ans
  obtain ⟨k0, k1⟩ := completeness_bounds ans q
  obtain ⟨o0, o1⟩ := overall_weighted_bounds ans q mode
  exact ⟨round1_bounds _ t0 t1, round1_bounds _ c0 c1, round1_bounds _ s0 s1,
    round1_bounds _ k0 k1, round1_bounds _ o0 o1⟩

lemma technical_low (ans : String) (q : Question) (m : String)
    (h : (splitWords ans).length < 5) :
    _evaluate_technical_accuracy ans q m ≤ 10 := by
  unfold _evaluate_technical_accuracy
  by_cases h1 : anyContains (stripStr (lowerStr ans)) nonAnswerPhrasesTechnical = true
  · norm_num [h1]
  · norm_num [h1, h]

lemma communication_low (ans : String) (h : (splitWords ans).length < 5) :
    _evaluate_communication_skills ans ≤ 20 := by
  unfold _evaluate_communication_skills
  by_cases h1 : anyContains (stripStr (lowerStr ans)) nonAnswerPhrasesShort = true
  · norm_num [h1]
  · norm_num [h1, h]

lemma sentiment_low (ans : String) (h : (splitWords ans).length < 5) :
    _evaluate_sentiment_and_tone ans ≤ 25 := by
  unfold _evaluate_sentiment_and_tone
  by_cases h1 : anyContains (stripStr (lowerStr ans)) nonAnswerPhrasesShort = true
  · norm_num [h1]
  · norm_num [h1, h]

lemma completeness_low (ans : String) (q : Question)
    (h : (splitWords ans).length < 5) : _evaluate_completeness ans q ≤ 15 := by
  unfold _evaluate_completeness
  by_cases h1 : anyContains (stripStr (lowerStr ans)) nonAnswerPhrasesShort = true
  · norm_num [h1]
  · norm_num [h1, h]

/-- C7.  evaluate_answer is a total function (no input raises): for every
answer string, including the empty string, it returns a well-formed record
whose grade is one of the five letter grades, whose pass bit matches the
60-point bar, and whose overall score is in range; for an answer of zero
words the stored overall score is at most 20 in every mode. -/
theorem C7_total_and_zero_words_low (ans : String) (q : Question)
    (mode dif : String) :
    ((evaluate_answer ans q mode dif).grade = "A (Excellent)"
      ∨ (evaluate_answer ans q mode dif).grade = "B (Very Good)"
      ∨ (evaluate_answer ans q mode dif).grade = "C (Good)"
      ∨ (evaluate_answer ans q mode dif).grade = "D (Satisfactory)"
      ∨ (evaluate_answer ans q mode dif).grade = "F (Needs Improvement)")
    ∧ ((evaluate_answer ans q mode dif).pass = true ↔
        60 ≤ overall_weighted ans q mode)
    ∧ (0 ≤ (evaluate_answer ans q mode dif).overall_score
      ∧ (evaluate_answer ans q mode dif).overall_score ≤ 100)
    ∧ ((splitWords ans).length = 0 →
        (evaluate_answer ans q mode dif).overall_score ≤ 20) := by
  obtain ⟨o0, o1⟩ := overall_weighted_bounds ans q mode
  have hg : (evaluate_answer ans q mode dif).grade
      = _get_grade (overall_weighted ans q mode) := rfl
  have hp : (evaluate_answer ans q mode dif).pass
      = decide (60 ≤ overall_weighted ans q mode) := rfl
  have ho : (evaluate_answer ans q mode dif).overall_score
      = round1 (overall_weighted ans q mode) := rfl
  rw [hg, hp, ho]
  refine ⟨grade_mem _, decide_eq_true_iff, round1_bounds _ o0 o1, fun h0 => ?_⟩
  have h5 : (splitWords ans).length < 5 := by omega
  have ht := technical_low ans q mode h5
  have hc := communication_low ans h5
  have hs := sentiment_low ans h5
  have hk := completeness_low ans q h5
  obtain ⟨t0, -⟩ := technical_bounds ans q mode
  obtain ⟨c0, -⟩ := communication_bounds ans
  obtain ⟨s0, -⟩ := sentiment_bounds ans
  obtain ⟨k0, -⟩ := completeness_bounds ans q
  have hov : overall_weighted ans q mode ≤ 19.25 := by
    unfold overall_weighted
    split_ifs <;> linarith
  have hr := (round1_close (overall_weighted ans q mode)).2
  linarith

/-- C7 witness: the empty answer has zero words and is scored at most 20. -/
theorem C7_total_and_zero_words_low_instance :
    (splitWords "").length = 0
    ∧ (evaluate_answer "" qC9 "HR" "Beginner").overall_score ≤ 20 :=
  ⟨by decide, (C7_total_and_zero_words_low "" qC9 "HR" "Beginner").2.2.2 (by decide)⟩

lemma technical_ansC10 :
    _evaluate_technical_accuracy ansC10 qC10 "Technical" = 259/5 := by
  have ha : anyContains (stripStr (lowerStr ansC10)) nonAnswerPhrasesTechnical = false := by
    decide
  have hwc : (splitWords ansC10).length = 118 := by decide
  have hk1 : (List.filter (fun kw => strContains (stripStr (lowerStr ansC10)) (lowerStr kw))
      qC10.keywords).length = 2 := by decide
  have hk2 : (List.filter (fun kw =>
      !strContains (stripStr (lowerStr ansC10)) (lowerStr kw) &&
      (splitWords (lowerStr kw)).any (fun w => strContains (stripStr (lowerStr ansC10)) w))
      qC10.keywords).length = 0 := by decide
  have hk3 : qC10.keywords.length = 3 := rfl
  have hk0 : qC10.keywords.isEmpty = false := rfl
  have hc0 : qC10.technical_concepts.isEmpty = true := rfl
  have hmode : ((("Technical" : String) = "HR")) = False := eq_false (by decide)
  simp only [_evaluate_technical_accuracy, ha, hwc, hk1, hk2, hk3, hk0, hc0, hmode]
  norm_num [clamp, min_def, max_def]

lemma communication_ansC10 : _evaluate_communication_skills ansC10 = 80 := by
  have hb : anyContains (stripStr (lowerStr ansC10)) nonAnswerPhrasesShort = false := by
    decide
  have hwc : (splitWords ansC10).length = 118 := by decide
  have hsen : (List.filter (fun l => !l.isEmpty)
      (List.map trimChars
        (splitChars (fun c => c == '.' || c == '!' || c == '?') ansC10.data))).length
      = 3 := by decide
  have hded : (splitWords ansC10).dedup.length = 118 := by decide
  have hmax : (List.foldr max 0
      (List.map (fun w => List.count w (List.map lowerStr (splitWords ansC10)))
        (List.map lowerStr (splitWords ansC10)))) = 1 := by decide
  have hprof : (List.filter (fun w => strContains (lowerStr ansC10) w)
      professionalIndicators).length = 0 := by decide
  simp only [_evaluate_communication_skills, hb, hwc, hsen, hded, hmax, hprof]
  norm_num [clamp, min_def, max_def]

lemma sentiment_ansC10 : _evaluate_sentiment_and_tone ansC10 = 35 := by
  have hb : anyContains (stripStr (lowerStr ansC10)) nonAnswerPhrasesShort = false := by
    decide
  have hwc : (splitWords ansC10).length = 118 := by decide
  have hconf : (List.filter (fun w => strContains (lowerStr ansC10) w)
      confidenceWords).length = 0 := by decide
  have hunc : (List.filter (fun w => strContains (lowerStr ansC10) w)
      uncertaintyWords).length = 0 := by decide
  simp only [_evaluate_sentiment_and_tone, hb, hwc, hconf, hunc]
  norm_num [clamp, min_def, max_def]

lemma completeness_ansC10 : _evaluate_completeness ansC10 qC10 = 70 := by
  have hb : anyContains (stripStr (lowerStr ansC10)) nonAnswerPhrasesShort = false := by
    decide
  have hwc : (splitWords ansC10).length = 118 := by decide
  have hqk : ((((splitChars (fun c => !(c.isAlphanum || c == '_'))
        (lowerStr qC10.question).data).filter (fun l => !l.isEmpty)).map
        (fun l => (⟨l⟩ : String))).dedup).filter (fun w => !stopWords.contains w)
      = ["thermodynamic", "entropy"] := by decide
  have hm : (List.filter (fun kw => strContains (stripStr (lowerStr ansC10)) kw)
      ["thermodynamic", "entropy"]).length = 1 := by decide
  have hexp : (explanationIndicators.any
      fun p => strContains (stripStr (lowerStr ansC10)) p) = false := by decide
  have hdur : qC10.expected_duration.getD 60 = 40 := rfl
  simp only [_evaluate_completeness, hb, hwc, hqk, hm, hexp, hdur]
  norm_num [clamp, min_def, max_def]

lemma overall_ansC10 : overall_weighted ansC10 qC10 "Technical" = 5997/100 := by
  simp only [overall_weighted, technical_ansC10, communication_ansC10,
    sentiment_ansC10, completeness_ansC10]
  norm_num

/-- C10.  The stored overall score is the weighted sum rounded to one
decimal, while pass and grade are computed from the unrounded sum; at the
concrete input ansC10 and qC10 the unrounded overall is 59.97, inside
[59.95, 60), so the returned record shows overall 60.0 with pass false and
grade F. -/
theorem C10_rounded_display_unrounded_gate :
    (∀ (ans : String) (q : Question) (mode dif : String),
      (evaluate_answer ans q mode dif).overall_score
          = round1 (overall_weighted ans q mode)
      ∧ (evaluate_answer ans q mode dif).pass
          = decide (60 ≤ overall_weighted ans q mode)
      ∧ (evaluate_answer ans q mode dif).grade
          = _get_grade (overall_weighted ans q mode))
    ∧ overall_weighted ansC10 qC10 "Technical" = 5997/100
    ∧ (5995/100 ≤ overall_weighted ansC10 qC10 "Technical"
       ∧ overall_weighted ansC10 qC10 "Technical" < 60)
    ∧ (evaluate_answer ansC10 qC10 "Technical" "Intermediate").overall_score = 60
    ∧ (evaluate_answer ansC10 qC10 "Technical" "Intermediate").pass = false
    ∧ (evaluate_answer ansC10 qC10 "Technical" "Intermediate").grade
        = "F (Needs Improvement)" := by
  have hov := overall_ansC10
  have hfl : ⌊(5997 : ℚ)/100 * 10⌋ = 599 := by
    rw [Int.floor_eq_iff]
    constructor <;> norm_num
  refine ⟨fun ans q mode dif => ⟨rfl, rfl, rfl⟩, hov, ?_, ?_, ?_, ?_⟩
  · rw [hov]
    norm_num
  · show round1 (overall_weighted ansC10 qC10 "Technical") = 60
    rw [hov]
    unfold round1 roundHalfEven
    rw [hfl]
    norm_num
  · show decide (60 ≤ overall_weighted ansC10 qC10 "Technical") = false
    rw [hov]
    exact decide_eq_false_iff_not.mpr (by norm_num)
  · show _get_grade (overall_weighted ansC10 qC10 "Technical")
        = "F (Needs Improvement)"
    rw [hov]
    exact (grade_eq_F_iff _).mpr (by norm_num)

lemma generate_follow_up_of_asked (s : Session) (seed : ℕ)
    (hne : s.questions_asked ≠ []) :
    ∃ fu, _generate_follow_up s seed = some fu ∧ fu.is_follow_up = true := by
  unfold _generate_follow_up
  cases hl : s.questions_asked.getLast? with
  | none => exact absurd (List.getLast?_eq_none_iff.mp hl) hne
  | some last => exact ⟨_, rfl, rfl⟩

lemma run_follow_up (bank : String → String → List Question) (s : Session)
    (seed : ℕ) (fu : Question) (hf : s.follow_up_needed = true)
    (hfu : _generate_follow_up s seed = some fu) :
    get_next_question bank (some s) seed =
      (some fu, some { s with follow_up_needed := false }) := by
  simp [get_next_question, hf, hfu]

lemma run_complete (bank : String → String → List Question) (s : Session)
    (seed : ℕ) (hsc : (if s.follow_up_needed then _generate_follow_up s seed
      else none) = none)
    (hdone : s.num_questions ≤ s.current_index) :
    get_next_question bank (some s) seed = (none, some s) := by
  unfold get_next_question
  dsimp only
  rw [hsc, if_pos hdone]

lemma run_draw (bank : String → String → List Question) (s : Session)
    (seed : ℕ) (a : Question) (t : List Question)
    (hsc : (if s.follow_up_needed then _generate_follow_up s seed
      else none) = none)
    (hlt : s.current_index < s.num_questions)
    (hav : s.available_questions = a :: t) :
    get_next_question bank (some s) seed = drawFrom s a t seed := by
  unfold get_next_question
  dsimp only
  rw [hsc, if_neg (not_le.mpr hlt), hav]

lemma run_recycle_empty (bank : String → String → List Question) (s : Session)
    (seed : ℕ)
    (hsc : (if s.follow_up_needed then _generate_follow_up s seed
      else none) = none)
    (hlt : s.current_index < s.num_questions)
    (hav : s.available_questions = [])
    (hb : bank s.mode s.difficulty = []) :
    get_next_question bank (some s) seed =
      (none, some { s with available_questions := [] }) := by
  unfold get_next_question
  dsimp only
  rw [hsc, if_neg (not_le.mpr hlt), hav]
  unfold _get_questions_for_session
  rw [hb]

lemma run_recycle_draw (bank : String → String → List Question) (s : Session)
    (seed : ℕ) (a : Question) (t : List Question)
    (hsc : (if s.follow_up_needed then _generate_follow_up s seed
      else none) = none)
    (hlt : s.current_index < s.num_questions)
    (hav : s.available_questions = [])
    (hb : bank s.mode s.difficulty = a :: t) :
    get_next_question bank (some s) seed =
      drawFrom { s with available_questions := a :: t } a t seed := by
  unfold get_next_question
  dsimp only
  rw [hsc, if_neg (not_le.mpr hlt), hav]
  unfold _get_questions_for_session
  rw [hb]

lemma drawFrom_fields (s : Session) (a : Question) (t : List Question)
    (seed : ℕ) (r : Option Question) (s2 : Session)
    (h : drawFrom s a t seed = (r, some s2)) :
    s2.questions_asked
        = s.questions_asked ++ [(a :: t).getD (seed % (a :: t).length) a]
      ∧ s2.current_index = s.current_index + 1 := by
  unfold drawFrom at h
  injection h with h1 h2
  injection h2 with h2
  subst h2
  exact ⟨rfl, rfl⟩

/-- C2.  should_ask_follow_up triggers with reason incomplete whenever the
stored completeness is below 60, regardless of the overall score; otherwise
it triggers with reason too_short when the overall score is below 50;
otherwise it returns false, leaves the session unchanged, and so no
follow-up becomes pending. -/
theorem C2_should_ask_follow_up_thresholds (s : Session) (e : Evaluation) :
    (e.completeness < 60 →
      should_ask_follow_up s e =
        (true, { s with follow_up_needed := true,
                        follow_up_reason := some "incomplete" }))
    ∧ (¬ e.completeness < 60 → e.overall_score < 50 →
      should_ask_follow_up s e =
        (true, { s with follow_up_needed := true,
                        follow_up_reason := some "too_short" }))
    ∧ (¬ e.completeness < 60 → ¬ e.overall_score < 50 →
      should_ask_follow_up s e = (false, s)
      ∧ ((should_ask_follow_up s e).2).follow_up_needed = s.follow_up_needed) := by
  unfold should_ask_follow_up
  refine ⟨fun h => ?_, fun h1 h2 => ?_, fun h1 h2 => ?_⟩
  · rw [if_pos h]
  · rw [if_neg h1, if_pos h2]
  · rw [if_neg h1, if_neg h2]
    exact ⟨rfl, rfl⟩

/-- C2 witness: a low-completeness evaluation triggers incomplete, a
low-overall one triggers too_short, and a good one triggers nothing. -/
theorem C2_should_ask_follow_up_thresholds_instance :
    should_ask_follow_up sIdle evalLowCompleteness =
      (true, { sIdle with follow_up_needed := true,
                          follow_up_reason := some "incomplete" })
    ∧ should_ask_follow_up sIdle evalLowOverall =
      (true, { sIdle with follow_up_needed := true,
                          follow_up_reason := some "too_short" })
    ∧ should_ask_follow_up sIdle evalGood = (false, sIdle) :=
  ⟨(C2_should_ask_follow_up_thresholds sIdle evalLowCompleteness).1 (by decide),
   (C2_should_ask_follow_up_thresholds sIdle evalLowOverall).2.1
     (by decide) (by decide),
   ((C2_should_ask_follow_up_thresholds sIdle evalGood).2.2
     (by decide) (by decide)).1⟩

/-- C3 counterexample: the answer ansC3 contains the phrase no clue from the
technical non-answer list, yet its completeness score is 85, far above 15,
because the completeness sub-scorer checks only the shorter seven-phrase
list. -/
theorem C3_counterexample_no_clue :
    ("no clue" ∈ nonAnswerPhrasesTechnical
      ∧ strContains (stripStr (lowerStr ansC3)) "no clue" = true)
    ∧ _evaluate_technical_accuracy ansC3 qC3 "Technical" = 5
    ∧ _evaluate_completeness ansC3 qC3 = 85
    ∧ ¬ _evaluate_completeness ansC3 qC3 ≤ 15 := by
  have hna : anyContains (stripStr (lowerStr ansC3)) nonAnswerPhrasesTechnical
      = true := by decide
  have hb : anyContains (stripStr (lowerStr ansC3)) nonAnswerPhrasesShort
      = false := by decide
  have hwc : (splitWords ansC3).length = 14 := by decide
  have hqk : ((((splitChars (fun c => !(c.isAlphanum || c == '_'))
        (lowerStr qC3.question).data).filter (fun l => !l.isEmpty)).map
        (fun l => (⟨l⟩ : String))).dedup).filter (fun w => !stopWords.contains w)
      = ["physics"] := by decide
  have hm : (List.filter (fun kw => strContains (stripStr (lowerStr ansC3)) kw)
      ["physics"]).length = 1 := by decide
  have hexp : (explanationIndicators.any
      fun p => strContains (stripStr (lowerStr ansC3)) p) = false := by decide
  have hdur : qC3.expected_duration.getD 60 = 4 := rfl
  have hcompl : _evaluate_completeness ansC3 qC3 = 85 := by
    simp only [_evaluate_completeness, hb, hwc, hqk, hm, hexp, hdur]
    norm_num [clamp, min_def, max_def]
  refine ⟨⟨by decide, by decide⟩, ?_, hcompl, by rw [hcompl]; norm_num⟩
  norm_num [_evaluate_technical_accuracy, hna]

/-- C3 as amended: an answer containing one of the seven phrases shared by
all sub-scorers (i don t know, i dont know, not sure, no idea, don t know,
dont know, i have no idea) is capped at technical_accuracy 10 and
completeness 15 regardless of keyword overlap; the longer fifteen-phrase
list caps only technical_accuracy. -/
theorem C3_shared_non_answer_caps (ans : String) (q : Question) (mode : String)
    (h : ∃ p ∈ nonAnswerPhrasesShort,
      strContains (stripStr (lowerStr ans)) p = true) :
    _evaluate_technical_accuracy ans q mode ≤ 10
    ∧ _evaluate_completeness ans q ≤ 15 := by
  obtain ⟨p, hp, hc⟩ := h
  have hshort : anyContains (stripStr (lowerStr ans)) nonAnswerPhrasesShort
      = true := by
    unfold anyContains
    rw [List.any_eq_true]
    exact ⟨p, hp, hc⟩
  have htech : anyContains (stripStr (lowerStr ans)) nonAnswerPhrasesTechnical
      = true := by
    unfold anyContains
    rw [List.any_eq_true]
    refine ⟨p, ?_, hc⟩
    have hp2 : p = "i don\x27t know" ∨ p = "i dont know" ∨ p = "not sure"
        ∨ p = "no idea" ∨ p = "don\x27t know" ∨ p = "dont know"
        ∨ p = "i have no idea" := by
      simpa [nonAnswerPhrasesShort] using hp
    rcases hp2 with rfl | rfl | rfl | rfl | rfl | rfl | rfl <;> decide
  constructor
  · norm_num [_evaluate_technical_accuracy, htech]
  · norm_num [_evaluate_completeness, hshort]

/-- C3 amended witness at a concrete non-answer. -/
theorem C3_shared_non_answer_caps_instance :
    _evaluate_technical_accuracy "I dont know the answer" qC3 "Technical" ≤ 10
    ∧ _evaluate_completeness "I dont know the answer" qC3 ≤ 15 :=
  C3_shared_non_answer_caps "I dont know the answer" qC3 "Technical"
    ⟨"i dont know", by decide, by decide⟩

lemma technical_ansC9 :
    _evaluate_technical_accuracy ansC9 qC9 "Technical" = 25 := by
  have ha : anyContains (stripStr (lowerStr ansC9)) nonAnswerPhrasesTechnical
      = false := by decide
  have hwc : (splitWords ansC9).length = 9 := by decide
  have hk1 : (List.filter (fun kw =>
      strContains (stripStr (lowerStr ansC9)) (lowerStr kw))
      qC9.keywords).length = 2 := by decide
  have hk2 : (List.filter (fun kw =>
      !strContains (stripStr (lowerStr ansC9)) (lowerStr kw) &&
      (splitWords (lowerStr kw)).any
        (fun w => strContains (stripStr (lowerStr ansC9)) w))
      qC9.keywords).length = 0 := by decide
  have hk3 : qC9.keywords.length = 3 := rfl
  have hk0 : qC9.keywords.isEmpty = false := rfl
  have hc0 : qC9.technical_concepts.isEmpty = false := rfl
  have hcf : (List.filter (fun c =>
      strContains (stripStr (lowerStr ansC9)) (lowerStr (underscoreToSpace c)))
      qC9.technical_concepts).length = 0 := by decide
  have hcl : qC9.technical_concepts.length = 1 := rfl
  have hmode : ((("Technical" : String) = "HR")) = False := eq_false (by decide)
  simp only [_evaluate_technical_accuracy, ha, hwc, hk1, hk2, hk3, hk0, hc0,
    hcf, hcl, hmode]
  norm_num [clamp, min_def, max_def]

lemma completeness_ansC9 : _evaluate_completeness ansC9 qC9 = 35 := by
  have hb : anyContains (stripStr (lowerStr ansC9)) nonAnswerPhrasesShort
      = false := by decide
  have hwc : (splitWords ansC9).length = 9 := by decide
  have hqk : ((((splitChars (fun c => !(c.isAlphanum || c == '_'))
        (lowerStr qC9.question).data).filter (fun l => !l.isEmpty)).map
        (fun l => (⟨l⟩ : String))).dedup).filter (fun w => !stopWords.contains w)
      = ["variable", "in", "programming"] := by decide
  have hm : (List.filter (fun kw => strContains (stripStr (lowerStr ansC9)) kw)
      ["variable", "in", "programming"]).length = 2 := by decide
  have hexp : (explanationIndicators.any
      fun p => strContains (stripStr (lowerStr ansC9)) p) = false := by decide
  have hdur : qC9.expected_duration.getD 60 = 60 := rfl
  simp only [_evaluate_completeness, hb, hwc, hqk, hm, hexp, hdur]
  norm_num [clamp, min_def, max_def]

/-- C9 counterexample: answering qC9 with exactly its ideal_answer text gives
technical_accuracy 25 and completeness 35, far below the claimed 80. -/
theorem C9_ideal_answer_counterexample :
    qC9.ideal_answer = some ansC9
    ∧ _evaluate_technical_accuracy ansC9 qC9 "Technical" = 25
    ∧ _evaluate_completeness ansC9 qC9 = 35
    ∧ ¬ (80 ≤ _evaluate_technical_accuracy ansC9 qC9 "Technical"
        ∧ 80 ≤ _evaluate_completeness ansC9 qC9) := by
  refine ⟨rfl, technical_ansC9, completeness_ansC9, ?_⟩
  rintro ⟨h1, -⟩
  rw [technical_ansC9] at h1
  norm_num at h1

/-- C9 as amended: the local evaluator never reads the ideal_answer field,
so every score is invariant under changing it and a verbatim ideal answer
earns no special score. -/
theorem C9_ideal_answer_ignored (ans : String) (q : Question) (mode : String)
    (ia : Option String) :
    _evaluate_technical_accuracy ans { q with ideal_answer := ia } mode
      = _evaluate_technical_accuracy ans q mode
    ∧ _evaluate_completeness ans { q with ideal_answer := ia }
      = _evaluate_completeness ans q
    ∧ overall_weighted ans { q with ideal_answer := ia } mode
      = overall_weighted ans q mode := by
  cases q
  exact ⟨rfl, rfl, rfl⟩

lemma getD_mem_cons (a : Question) (t : List Question) (i : ℕ) :
    (a :: t).getD (i % (a :: t).length) a ∈ a :: t := by
  have h : i % (a :: t).length < (a :: t).length := Nat.mod_lt _ (by simp)
  rw [List.getD_eq_getElem?_getD, List.getElem?_eq_getElem h, Option.getD_some]
  exact List.getElem_mem h

lemma scrutinee_none_of_flag_false (s : Session) (seed : ℕ)
    (hf : s.follow_up_needed = false) :
    (if s.follow_up_needed then _generate_follow_up s seed else none) = none := by
  rw [if_neg]
  intro hc
  rw [hf] at hc
  exact Bool.false_ne_true hc

lemma pool_invariant (bank : String → String → List Question) (s : Session)
    (seed : ℕ) (r : Option Question) (s2 : Session)
    (hsc : (if s.follow_up_needed then _generate_follow_up s seed
      else none) = none)
    (hlen : s.questions_asked.length = s.current_index)
    (hrun : get_next_question bank (some s) seed = (r, some s2)) :
    s2.questions_asked.length = s2.current_index := by
  rcases le_or_lt s.num_questions s.current_index with hdone | hlt
  · rw [run_complete bank s seed hsc hdone] at hrun
    injection hrun with h1 h2
    injection h2 with h2
    subst h2
    exact hlen
  · cases hav : s.available_questions with
    | cons a t =>
      rw [run_draw bank s seed a t hsc hlt hav] at hrun
      obtain ⟨hq, hi⟩ := drawFrom_fields s a t seed r s2 hrun
      simp [hq, hi, hlen]
    | nil =>
      cases hb : bank s.mode s.difficulty with
      | nil =>
        rw [run_recycle_empty bank s seed hsc hlt hav hb] at hrun
        injection hrun with h1 h2
        injection h2 with h2
        subst h2
        simpa using hlen
      | cons a t =>
        rw [run_recycle_draw bank s seed a t hsc hlt hav hb] at hrun
        obtain ⟨hq, hi⟩ := drawFrom_fields _ a t seed r s2 hrun
        simp only [hq, hi]
        simp [hlen]

/-- C4.  Serving a follow-up leaves the asked history, the index and the
pool untouched and clears the follow_up_needed flag (so at most one
follow-up is emitted per triggering answer); and every get_next_question
step preserves the invariant that the number of pool-drawn questions in
questions_asked equals current_index, since follow-ups are never appended
to the history and only pool draws advance the index. -/
theorem C4_follow_up_preserves_index (bank : String → String → List Question)
    (s : Session) (seed : ℕ) :
    (s.follow_up_needed = true → s.questions_asked ≠ [] →
      ∃ fu, get_next_question bank (some s) seed =
          (some fu, some { s with follow_up_needed := false })
        ∧ fu.is_follow_up = true)
    ∧ (s.questions_asked.length = s.current_index →
       ∀ r s2, get_next_question bank (some s) seed = (r, some s2) →
         s2.questions_asked.length = s2.current_index) := by
  constructor
  · intro hf hne
    obtain ⟨fu, hfu, hflag⟩ := generate_follow_up_of_asked s seed hne
    exact ⟨fu, run_follow_up bank s seed fu hf hfu, hflag⟩
  · intro hlen r s2 hrun
    by_cases hf : s.follow_up_needed = true
    · cases hfu : _generate_follow_up s seed with
      | some fu =>
        rw [run_follow_up bank s seed fu hf hfu] at hrun
        injection hrun with h1 h2
        injection h2 with h2
        subst h2
        simpa using hlen
      | none =>
        have hsc : (if s.follow_up_needed then _generate_follow_up s seed
            else none) = none := by rw [if_pos hf]; exact hfu
        exact pool_invariant bank s seed r s2 hsc hlen hrun
    · have hf2 : s.follow_up_needed = false := by
        cases hfc : s.follow_up_needed
        · rfl
        · exact absurd hfc hf
      exact pool_invariant bank s seed r s2
        (scrutinee_none_of_flag_false s seed hf2) hlen hrun

/-- C4 witness: on the concrete pending-follow-up session sC4 a follow-up is
served, the index stays 1, and the invariant holds in the resulting state. -/
theorem C4_follow_up_preserves_index_instance :
    get_next_question emptyBank (some sC4) 0 =
      (some fuC4, some { sC4 with follow_up_needed := false })
    ∧ fuC4.is_follow_up = true
    ∧ s2C4.questions_asked.length = s2C4.current_index := by
  obtain ⟨fu, he, hb⟩ :=
    (C4_follow_up_preserves_index emptyBank sC4 0).1 rfl (by decide)
  have hrun : get_next_question emptyBank (some sC4) 0 =
      (some fuC4, some { sC4 with follow_up_needed := false }) := by decide
  refine ⟨hrun, ?_,
    (C4_follow_up_preserves_index emptyBank sC4 0).2 (by decide)
      (some fuC4) s2C4 (by decide)⟩
  have hsome : some fu = some fuC4 := congrArg Prod.fst (he.symm.trans hrun)
  injection hsome with hqe
  rw [← hqe]
  exact hb

/-- C5 counterexample: start_session with two equal forced custom questions
yields the pool [qDup, qDup]; the first draw moves one copy into
questions_asked while the second copy stays in available_questions, so with
no recycle event the pool again offers a question already asked. -/
theorem C5_duplicate_pool_counterexample :
    sDup.available_questions = [qDup, qDup]
    ∧ sDup.questions_asked = []
    ∧ get_next_question emptyBank (some sDup) 0 = (some qDup, some sDupAfter)
    ∧ qDup ∈ sDupAfter.questions_asked
    ∧ qDup ∈ sDupAfter.available_questions := by
  refine ⟨rfl, rfl, by decide, by decide, by decide⟩

/-- C5 as amended: a drawn question has its first occurrence removed from
available_questions and is appended to questions_asked, and when the pool
is duplicate-free and disjoint from the asked history, after the draw no
question of the asked history remains available (absent recycling). -/
theorem C5_draw_removes_and_preserves_disjoint (s : Session) (a : Question)
    (t : List Question) (seed : ℕ) (bank : String → String → List Question)
    (hf : s.follow_up_needed = false)
    (hlt : s.current_index < s.num_questions)
    (hav : s.available_questions = a :: t)
    (hnd : (a :: t).Nodup)
    (hdisj : ∀ x ∈ s.questions_asked, x ∉ a :: t) :
    ∃ q, q ∈ a :: t
      ∧ get_next_question bank (some s) seed =
          (some q, some { s with
              available_questions := (a :: t).erase q,
              questions_asked := s.questions_asked ++ [q],
              current_index := s.current_index + 1 })
      ∧ ∀ x ∈ s.questions_asked ++ [q], x ∉ (a :: t).erase q := by
  have hsc := scrutinee_none_of_flag_false s seed hf
  refine ⟨(a :: t).getD (seed % (a :: t).length) a, getD_mem_cons a t seed,
    ?_, ?_⟩
  · rw [run_draw bank s seed a t hsc hlt hav]
    rfl
  · intro x hx hmem
    rcases List.mem_append.mp hx with hx1 | hx2
    · exact hdisj x hx1 (List.erase_subset _ _ hmem)
    · have hxq := List.mem_singleton.mp hx2
      subst hxq
      rcases (hnd.mem_erase_iff).mp hmem with ⟨hne, -⟩
      exact hne rfl

/-- C5 amended witness: drawing from the duplicate-free pool of sW5. -/
theorem C5_draw_removes_and_preserves_disjoint_instance :
    get_next_question emptyBank (some sW5) 0 =
      (some qDup,
       some { sW5 with
                available_questions := [],
                questions_asked := [qDup],
                current_index := 1 }) := by
  obtain ⟨q, hm, he, -⟩ := C5_draw_removes_and_preserves_disjoint sW5 qDup [] 0
    emptyBank rfl (by decide) rfl (by decide) (by decide)
  have hq : q = qDup := by simpa using hm
  subst hq
  exact he.trans (by decide)

/-- C6.  With no follow-up pending: when the pool is empty and more
questions are owed, get_next_question refills the pool from the static bank
for the session mode and difficulty and draws from it; if the bank is empty
too it returns none rather than looping or raising; and once current_index
has reached num_questions it returns none with the session unchanged. -/
theorem C6_pool_exhaustion_graceful (bank : String → String → List Question)
    (s : Session) (seed : ℕ) (hf : s.follow_up_needed = false) :
    (s.available_questions = [] → s.current_index < s.num_questions →
      (bank s.mode s.difficulty = [] →
        get_next_question bank (some s) seed = (none, some s))
      ∧ (∀ a t, bank s.mode s.difficulty = a :: t →
          ∃ q, q ∈ a :: t ∧
            get_next_question bank (some s) seed =
              (some q, some { s with
                  available_questions := (a :: t).erase q,
                  questions_asked := s.questions_asked ++ [q],
                  current_index := s.current_index + 1 })))
    ∧ (s.num_questions ≤ s.current_index →
        get_next_question bank (some s) seed = (none, some s)) := by
  have hsc := scrutinee_none_of_flag_false s seed hf
  constructor
  · intro hav hlt
    constructor
    · intro hb
      rw [run_recycle_empty bank s seed hsc hlt hav hb]
      have hs0 : { s with available_questions := ([] : List Question) } = s := by
        obtain ⟨m, d, n, c, qa, av, f, fr, la⟩ := s
        dsimp only at hav
        subst hav
        rfl
      rw [hs0]
    · intro a t hb
      refine ⟨(a :: t).getD (seed % (a :: t).length) a,
        getD_mem_cons a t seed, ?_⟩
      rw [run_recycle_draw bank s seed a t hsc hlt hav hb]
      rfl
  · intro hdone
    exact run_complete bank s seed hsc hdone

/-- C6 witness: the concrete exhausted session sC6 ends gracefully both on
an empty bank and on completion. -/
theorem C6_pool_exhaustion_graceful_instance :
    get_next_question emptyBank (some sC6) 0 = (none, some sC6)
    ∧ get_next_question emptyBank (some { sC6 with current_index := 3 }) 0 =
      (none, some { sC6 with current_index := 3 }) :=
  ⟨((C6_pool_exhaustion_graceful emptyBank sC6 0 rfl).1 rfl (by decide)).1 rfl,
   (C6_pool_exhaustion_graceful emptyBank { sC6 with current_index := 3 } 0
     rfl).2 (by decide)⟩
